import Mathlib

/-!
# Verification of the vinews VnExpress search module

Shallow embedding of `src/vinews/modules/vnexpress/search.py`.

The external collaborators (the httpx HTTP client, the page parser and the
article parser) are modelled as components of a `World` record: each is a
function from its inputs to an `Except Err` result, mirroring the fact that
each Python call either returns a value or raises an exception.

Python exceptions are modelled with `Except Err`; the `Err` constructors
mirror the exception taxonomy that appears in the source
(`httpx.HTTPStatusError`, network/timeout transport errors,
`MissingElementError` / `UnexpectedElementError` from the parsers, and
`ValueError` raised by the constructor and the timeout setter).
-/

namespace Vinews

/-- Exceptions raised by the code and its collaborators. -/
inductive Err where
  | httpStatus (code : Nat)       -- httpx.HTTPStatusError from raise_for_status
  | transport                     -- network error / timeout
  | missingElement (s : String)   -- vinews.core.exceptions.MissingElementError
  | unexpectedElement (s : String)
  | valueError (msg : String)     -- Python ValueError
  deriving DecidableEq, Repr

/-- `SearchReference`: lightweight pointer to a candidate article. -/
structure SearchReference where
  title : String
  url : String
  summary : String
  deriving DecidableEq, Repr

/-- `Article`: a fully parsed article record. -/
structure Article where
  url : String
  title : String
  body : String
  deriving DecidableEq, Repr

/-- `Homepage`: structured snapshot of the front page. -/
structure Homepage where
  results : List SearchReference
  deriving DecidableEq, Repr

/-- `SearchResults`: snapshot of a basic search. -/
structure SearchResults where
  url : String
  domain : String
  params : List (String × String)
  results : List SearchReference
  total_results : Nat
  timestamp : Int
  deriving DecidableEq, Repr

/-- `AdvancedSearchResults`: same shape but `results : List Article`. -/
structure AdvancedSearchResults where
  url : String
  domain : String
  params : List (String × String)
  results : List Article
  total_results : Nat
  timestamp : Int
  deriving DecidableEq, Repr

/-- The external collaborators: HTTP fetcher (GET with optional timeout,
raising on non-2xx via `raise_for_status`), page parser and article parser.
The fetch takes the timeout actually passed to the `httpx` client
(`none` when `httpx.Client()` is built without one). -/
structure World where
  fetch : Option Int → String → Except Err String
  parse_search_results : String → Except Err (List SearchReference)
  parse_article : String → String → Except Err Article
  parse_homepage : String → Except Err Homepage

/-- State of a `VinewsVnExpressSearch` object. -/
structure VinewsVnExpressSearch where
  _timeout : Int
  _semaphore_limit : Int
  _homepage_url : String
  _domain : String
  _base_search_url : String
  deriving DecidableEq, Repr

namespace VinewsVnExpressSearch

/-- `__init__(self, timeout=10, **kwargs)`: validates `timeout` and, when
supplied, `semaphore_limit` (default 5), then stores the fixed URLs. -/
def init (timeout : Int := 10) (semaphore_limit : Option Int := none) :
    Except Err VinewsVnExpressSearch :=
  if timeout ≤ 0 then
    .error (.valueError "Timeout must be a positive integer.")
  else if semaphore_limit.any (· ≤ 0) then
    .error (.valueError "semaphore_limit must be a positive integer.")
  else
    .ok {
      _timeout := timeout
      _semaphore_limit := semaphore_limit.getD 5
      _homepage_url := "https://vnexpress.net/"
      _domain := "vnexpress.net"
      _base_search_url := "https://timkiem.vnexpress.net/"
    }

/-- The `timeout` property setter: rejects non-positive values, otherwise
mutates `_timeout`. -/
def setTimeout (s : VinewsVnExpressSearch) (value : Int) :
    Except Err VinewsVnExpressSearch :=
  if value ≤ 0 then .error (.valueError "Timeout must be a positive integer.")
  else .ok { s with _timeout := value }

end VinewsVnExpressSearch

/-- `urlencode(params)`: joins `key=value` pairs with `&`. Percent-escaping
of the values is glue irrelevant to the claims and is left as the identity. -/
def urlencode (params : List (String × String)) : String :=
  String.intercalate "&" (params.map fun p => p.1 ++ "=" ++ p.2)

/-- Python list slicing `xs[:stop]` for an arbitrary integer `stop`:
a non-negative `stop` takes the first `stop` elements; a negative `stop`
drops the last `|stop|` elements (empty result when `|stop| ≥ len`). -/
def pySliceTo (xs : List α) (stop : Int) : List α :=
  if 0 ≤ stop then xs.take stop.toNat
  else xs.take (xs.length - (-stop).toNat)

/-- The query-string parameters assembled by `search` / `async_search`:
`q` always, then `date_range` and `category` when supplied. -/
def buildParams (query : String) (date_range : Option String)
    (category : Option String) : List (String × String) :=
  [("q", query)]
    ++ (match date_range with | some d => [("date_range", d)] | none => [])
    ++ (match category with | some c => [("category", c)] | none => [])

/-- The synchronous advanced-search loop body (`search`, lines 139–147):
for each URL, `client.get(url)` plus `raise_for_status()` happen OUTSIDE
any try/except, so a fetch failure propagates and aborts the loop; only
`parse_article` is wrapped in try/except, whose failure skips the URL. -/
def syncFetchParseLoop (w : World) (timeout : Int) (urls : List String) :
    Except Err (List Article) :=
  match urls with
  | [] => .ok []
  | u :: rest =>
    match w.fetch (some timeout) u with
    | .error e => .error e
    | .ok body =>
      match w.parse_article u body with
      | .ok a => (syncFetchParseLoop w timeout rest).map (a :: ·)
      | .error _ => syncFetchParseLoop w timeout rest

/-- Number of URLs for which the synchronous loop actually issues an HTTP
request: all of them until (and including) the first fetch failure, which
aborts the loop. -/
def syncAttempted (w : World) (timeout : Int) (urls : List String) : Nat :=
  match urls with
  | [] => 0
  | u :: rest =>
    match w.fetch (some timeout) u with
    | .error _ => 1
    | .ok _ => 1 + syncAttempted w timeout rest

/-- `_async_fetch_and_parse(self, url)`: under the semaphore, fetch with
timeout (`raise_for_status` outside any try), then try to parse; a parse
failure is swallowed (`pass`), making the coroutine return `None`. -/
def asyncFetchAndParse (w : World) (timeout : Int) (url : String) :
    Except Err (Option Article) :=
  match w.fetch (some timeout) url with
  | .error e => .error e
  | .ok body =>
    match w.parse_article url body with
    | .ok a => .ok (some a)
    | .error _ => .ok none

/-- `asyncio.gather(*tasks)`: results in task-submission order; if a task
raises, the exception propagates out of `gather`. -/
def gather (tasks : List (Except Err (Option Article))) :
    Except Err (List (Option Article)) :=
  match tasks with
  | [] => .ok []
  | t :: rest =>
    match t with
    | .error e => .error e
    | .ok a => (gather rest).map (a :: ·)

/-- The result type of `search` / `async_search`:
`Union[SearchResults, AdvancedSearchResults]`. -/
abbrev SearchReturn := SearchResults ⊕ AdvancedSearchResults

/-- `VinewsVnExpressSearch.search` (the synchronous implementation).
`limit` is `kwargs.get("limit", 5)`; `now` is `datetime.now().timestamp()`.
The primary page is fetched with `httpx.Client()` (no timeout) and parsed
with no exception handling; in advanced mode the first `limit` reference
URLs are processed by the sequential fetch-and-parse loop. -/
def VinewsVnExpressSearch.search (s : VinewsVnExpressSearch) (w : World)
    (query : String) (date_range : Option String) (category : Option String)
    (advanced : Bool) (limit : Option Int) (now : Int) :
    Except Err SearchReturn :=
  let lim := limit.getD 5
  let params := buildParams query date_range category
  let search_url := s._base_search_url ++ "?" ++ urlencode params
  match w.fetch none search_url with
  | .error e => .error e
  | .ok page =>
    match w.parse_search_results page with
    | .error e => .error e
    | .ok news_cards =>
      if advanced then
        let urls := news_cards.map (·.url)
        match syncFetchParseLoop w s._timeout (pySliceTo urls lim) with
        | .error e => .error e
        | .ok articles =>
          .ok (.inr {
            url := search_url
            domain := s._domain
            params := params
            results := articles
            total_results := articles.length
            timestamp := now })
      else
        .ok (.inl {
          url := search_url
          domain := s._domain
          params := params
          results := news_cards
          total_results := news_cards.length
          timestamp := now })

/-- `VinewsVnExpressSearch.async_search`. The primary page is fetched with
`httpx.AsyncClient(timeout=self._timeout)`; in advanced mode one
`_async_fetch_and_parse` task per truncated URL is gathered, the `None`
results are filtered out, and `total_results` is the PRE-filter length. -/
def VinewsVnExpressSearch.async_search (s : VinewsVnExpressSearch) (w : World)
    (query : String) (date_range : Option String) (category : Option String)
    (advanced : Bool) (limit : Option Int) (now : Int) :
    Except Err SearchReturn :=
  let lim := limit.getD 5
  let params := buildParams query date_range category
  let search_url := s._base_search_url ++ "?" ++ urlencode params
  match w.fetch (some s._timeout) search_url with
  | .error e => .error e
  | .ok page =>
    match w.parse_search_results page with
    | .error e => .error e
    | .ok news_cards =>
      if advanced then
        let urls := news_cards.map (·.url)
        let tasks := (pySliceTo urls lim).map (asyncFetchAndParse w s._timeout)
        match gather tasks with
        | .error e => .error e
        | .ok articles =>
          let articles_filtered := articles.filterMap id
          .ok (.inr {
            url := search_url
            domain := s._domain
            params := params
            results := articles_filtered
            total_results := articles.length
            timestamp := now })
      else
        .ok (.inl {
          url := search_url
          domain := s._domain
          params := params
          results := news_cards
          total_results := news_cards.length
          timestamp := now })

/-- `fetch_homepage`: GET the fixed homepage URL with `httpx.Client()`
(no timeout), `raise_for_status`, then `parse_homepage` — no handlers. -/
def VinewsVnExpressSearch.fetch_homepage (s : VinewsVnExpressSearch)
    (w : World) : Except Err Homepage :=
  match w.fetch none s._homepage_url with
  | .error e => .error e
  | .ok body => w.parse_homepage body

/-- `async_fetch_homepage`: identical control flow with `AsyncClient()`
(also built without a timeout argument). -/
def VinewsVnExpressSearch.async_fetch_homepage (s : VinewsVnExpressSearch)
    (w : World) : Except Err Homepage :=
  match w.fetch none s._homepage_url with
  | .error e => .error e
  | .ok body => w.parse_homepage body

/-- The search URL assembled by both `search` and `async_search`. -/
def searchUrlOf (s : VinewsVnExpressSearch) (query : String)
    (date_range : Option String) (category : Option String) : String :=
  s._base_search_url ++ "?" ++ urlencode (buildParams query date_range category)

/-- Per-URL outcome of the fetch-then-parse step when the fetch succeeds:
`some a` when the article parser succeeds, `none` when it raises (and the
exception is swallowed). `none` also stands for a fetch failure, which in
the real code propagates before this value is ever consulted. -/
def articleOutcome (w : World) (t : Int) (u : String) : Option Article :=
  match w.fetch (some t) u with
  | .error _ => none
  | .ok body => (w.parse_article u body).toOption

/-!
## Helper lemmas about the batch engine
-/

theorem syncFetchParseLoop_eq_filterMap (w : World) (t : Int)
    (urls : List String)
    (h : ∀ u ∈ urls, ∃ b, w.fetch (some t) u = .ok b) :
    syncFetchParseLoop w t urls = .ok (urls.filterMap (articleOutcome w t)) := by
  induction urls with
  | nil => rfl
  | cons u rest ih =>
    obtain ⟨b, hb⟩ := h u (List.mem_cons_self u rest)
    have hrest := ih fun v hv => h v (List.mem_cons_of_mem u hv)
    simp only [syncFetchParseLoop, hb, List.filterMap_cons, articleOutcome]
    cases hpa : w.parse_article u b with
    | ok a => simp [hrest, Except.map, hpa, Except.toOption]
    | error e => simp [hrest, hpa, Except.toOption]

theorem syncAttempted_le_length (w : World) (t : Int) (urls : List String) :
    syncAttempted w t urls ≤ urls.length := by
  induction urls with
  | nil => simp [syncAttempted]
  | cons u rest ih =>
    cases hfb : w.fetch (some t) u with
    | error e => simp [syncAttempted, hfb]
    | ok b =>
      simp only [syncAttempted, hfb, List.length_cons]
      omega

theorem syncAttempted_eq_length (w : World) (t : Int) (urls : List String)
    (h : ∀ u ∈ urls, ∃ b, w.fetch (some t) u = .ok b) :
    syncAttempted w t urls = urls.length := by
  induction urls with
  | nil => rfl
  | cons u rest ih =>
    obtain ⟨b, hb⟩ := h u (List.mem_cons_self u rest)
    have hrest := ih fun v hv => h v (List.mem_cons_of_mem u hv)
    simp [syncAttempted, hb, hrest, Nat.add_comm]

theorem syncFetchParseLoop_ok_length (w : World) (t : Int)
    (urls : List String) (arts : List Article)
    (h : syncFetchParseLoop w t urls = .ok arts) :
    arts.length ≤ urls.length := by
  induction urls generalizing arts with
  | nil =>
    simp only [syncFetchParseLoop] at h
    cases h
    simp
  | cons u rest ih =>
    cases hfb : w.fetch (some t) u with
    | error e => simp [syncFetchParseLoop, hfb] at h
    | ok body =>
      cases hpa : w.parse_article u body with
      | ok a =>
        cases hrec : syncFetchParseLoop w t rest with
        | error e =>
          simp [syncFetchParseLoop, hfb, hpa, hrec, Except.map] at h
        | ok arts0 =>
          simp only [syncFetchParseLoop, hfb, hpa, hrec, Except.map,
            Except.ok.injEq] at h
          subst h
          have := ih arts0 hrec
          simp only [List.length_cons]
          omega
      | error e =>
        simp only [syncFetchParseLoop, hfb, hpa] at h
        have := ih arts h
        simp only [List.length_cons]
        omega

theorem gather_map_eq (w : World) (t : Int) (urls : List String)
    (h : ∀ u ∈ urls, ∃ b, w.fetch (some t) u = .ok b) :
    gather (urls.map (asyncFetchAndParse w t))
      = .ok (urls.map (articleOutcome w t)) := by
  induction urls with
  | nil => rfl
  | cons u rest ih =>
    obtain ⟨b, hb⟩ := h u (List.mem_cons_self u rest)
    have hrest := ih fun v hv => h v (List.mem_cons_of_mem u hv)
    simp only [List.map_cons, gather, asyncFetchAndParse, hb, articleOutcome]
    cases hpa : w.parse_article u b with
    | ok a => simp [hrest, Except.map, Except.toOption]
    | error e => simp [hrest, Except.map, Except.toOption]

theorem gather_ok_length (ts : List (Except Err (Option Article)))
    (os : List (Option Article)) (h : gather ts = .ok os) :
    os.length = ts.length := by
  induction ts generalizing os with
  | nil =>
    simp only [gather] at h
    cases h
    rfl
  | cons x rest ih =>
    simp only [gather] at h
    cases x with
    | error e => cases h
    | ok a =>
      cases hrec : gather rest with
      | error e => rw [hrec] at h; cases h
      | ok os0 =>
        rw [hrec] at h
        simp only [Except.map, Except.ok.injEq] at h
        subst h
        simp [ih os0 hrec]

/-- An order-preserving filter is a sublist of the corresponding total map:
whenever `f` returns `some`, it agrees with `g`. -/
theorem filterMap_sublist_map {α β : Type} (f : α → Option β) (g : α → β)
    (xs : List α) (h : ∀ x ∈ xs, ∀ a, f x = some a → a = g x) :
    List.Sublist (xs.filterMap f) (xs.map g) := by
  induction xs with
  | nil => simp
  | cons x rest ih =>
    have hrest := ih fun v hv => h v (List.mem_cons_of_mem x hv)
    simp only [List.filterMap_cons, List.map_cons]
    cases hfx : f x with
    | none => exact hrest.cons _
    | some a =>
      have := h x (List.mem_cons_self x rest) a hfx
      subst this
      exact hrest.cons₂ _

/-!
## Master characterizations of advanced search when every fetch succeeds

These lemmas capture both implementations' behaviour under a world whose
HTTP fetches always succeed (bodies given by `fetchBody`) and whose page
parser always succeeds (cards given by `cardsOf`); the article parser is
unconstrained and may fail per URL.
-/

theorem search_advanced_spec (s : VinewsVnExpressSearch) (w : World)
    (query : String) (dr cat : Option String) (limit : Option Int) (now : Int)
    (fetchBody : Option Int → String → String)
    (cardsOf : String → List SearchReference)
    (hf : ∀ t u, w.fetch t u = .ok (fetchBody t u))
    (hc : ∀ p, w.parse_search_results p = .ok (cardsOf p)) :
    s.search w query dr cat true limit now = .ok (.inr {
      url := searchUrlOf s query dr cat
      domain := s._domain
      params := buildParams query dr cat
      results := (pySliceTo
          ((cardsOf (fetchBody none (searchUrlOf s query dr cat))).map (·.url))
          (limit.getD 5)).filterMap (articleOutcome w s._timeout)
      total_results := ((pySliceTo
          ((cardsOf (fetchBody none (searchUrlOf s query dr cat))).map (·.url))
          (limit.getD 5)).filterMap (articleOutcome w s._timeout)).length
      timestamp := now }) := by
  have hloop := syncFetchParseLoop_eq_filterMap w s._timeout
    (pySliceTo ((cardsOf (fetchBody none (searchUrlOf s query dr cat))).map
      (·.url)) (limit.getD 5))
    (fun u _ => ⟨fetchBody (some s._timeout) u, hf _ u⟩)
  simp only [searchUrlOf] at hloop
  simp [VinewsVnExpressSearch.search, searchUrlOf, hf, hc, hloop]

theorem async_search_advanced_spec (s : VinewsVnExpressSearch) (w : World)
    (query : String) (dr cat : Option String) (limit : Option Int) (now : Int)
    (fetchBody : Option Int → String → String)
    (cardsOf : String → List SearchReference)
    (hf : ∀ t u, w.fetch t u = .ok (fetchBody t u))
    (hc : ∀ p, w.parse_search_results p = .ok (cardsOf p)) :
    s.async_search w query dr cat true limit now = .ok (.inr {
      url := searchUrlOf s query dr cat
      domain := s._domain
      params := buildParams query dr cat
      results := (pySliceTo
          ((cardsOf (fetchBody (some s._timeout)
            (searchUrlOf s query dr cat))).map (·.url))
          (limit.getD 5)).filterMap (articleOutcome w s._timeout)
      total_results := (pySliceTo
          ((cardsOf (fetchBody (some s._timeout)
            (searchUrlOf s query dr cat))).map (·.url))
          (limit.getD 5)).length
      timestamp := now }) := by
  have hg := gather_map_eq w s._timeout
    (pySliceTo ((cardsOf (fetchBody (some s._timeout)
      (searchUrlOf s query dr cat))).map (·.url)) (limit.getD 5))
    (fun u _ => ⟨fetchBody (some s._timeout) u, hf _ u⟩)
  simp only [searchUrlOf] at hg
  simp [VinewsVnExpressSearch.async_search, searchUrlOf, hf, hc, hg,
    List.filterMap_map]

/-!
## Concurrency model for the asynchronous batch

`__init__` creates `self._semaphore = asyncio.Semaphore(self._semaphore_limit)`
and every `_async_fetch_and_parse` coroutine wraps its HTTP request in
`async with self._semaphore`. We model the event loop's interleaving of the
batch's coroutines as a small-step transition system: each task is pending
(before `async with` grants it a slot), in flight (holding a slot while its
request runs), or done (slot released, with a flag recording whether the
body finished normally or raised). `async with` releases the semaphore on
both normal and exceptional exit, which is why `finish` releases the slot
for either outcome.
-/

/-- Phase of one `_async_fetch_and_parse` task with respect to the
semaphore. `done ok` records whether the body returned normally
(`ok = true`) or raised (`ok = false`); the slot is released either way. -/
inductive TaskPhase where
  | pending
  | inFlight
  | done (ok : Bool)
  deriving DecidableEq, Repr

/-- Whether a task currently holds a semaphore slot (its HTTP request is in
flight). -/
def TaskPhase.isInFlight : TaskPhase → Bool
  | .inFlight => true
  | _ => false

/-- Whether a task has finished (and released its slot). -/
def TaskPhase.isDone : TaskPhase → Bool
  | .done _ => true
  | _ => false

/-- A state of the batch: the semaphore's internal counter and the phase of
each task. -/
structure SemState where
  counter : Nat
  tasks : List TaskPhase
  deriving DecidableEq, Repr

/-- Number of HTTP requests currently in flight. -/
def SemState.inFlightCount (s : SemState) : Nat :=
  s.tasks.countP (·.isInFlight)

/-- One scheduler step: a pending task acquires a slot when the counter is
positive, or an in-flight task finishes — normally or with an exception —
and releases its slot unconditionally. -/
inductive SemStep : SemState → SemState → Prop where
  | acquire (s : SemState) (i : Nat)
      (hp : s.tasks[i]? = some .pending) (hc : 0 < s.counter) :
      SemStep s ⟨s.counter - 1, s.tasks.set i .inFlight⟩
  | finish (s : SemState) (i : Nat) (ok : Bool)
      (hf : s.tasks[i]? = some .inFlight) :
      SemStep s ⟨s.counter + 1, s.tasks.set i (.done ok)⟩

/-- The batch's initial state: `asyncio.Semaphore(cap)` and `n` tasks all
waiting to enter `async with self._semaphore`. -/
def semInit (cap n : Nat) : SemState :=
  ⟨cap, List.replicate n .pending⟩

/-- States the scheduler can reach from the initial batch state. -/
inductive SemReachable (cap n : Nat) : SemState → Prop where
  | init : SemReachable cap n (semInit cap n)
  | step {s t : SemState} : SemReachable cap n s → SemStep s t →
      SemReachable cap n t

/-- Counting in-flight tasks after granting a slot to a pending task. -/
theorem countP_set_pending_to_inFlight (ts : List TaskPhase) (i : Nat)
    (hp : ts[i]? = some .pending) :
    (ts.set i .inFlight).countP (·.isInFlight)
      = ts.countP (·.isInFlight) + 1 := by
  induction ts generalizing i with
  | nil => simp at hp
  | cons a ts ih =>
    cases i with
    | zero =>
      simp only [List.getElem?_cons_zero, Option.some.injEq] at hp
      subst hp
      simp [List.countP_cons, TaskPhase.isInFlight, Nat.add_comm]
    | succ j =>
      simp only [List.getElem?_cons_succ] at hp
      simp only [List.set_cons_succ, List.countP_cons, ih j hp]
      omega

/-- Counting in-flight tasks after an in-flight task releases its slot. -/
theorem countP_set_inFlight_to_done (ts : List TaskPhase) (i : Nat)
    (ok : Bool) (hf : ts[i]? = some .inFlight) :
    (ts.set i (.done ok)).countP (·.isInFlight) + 1
      = ts.countP (·.isInFlight) := by
  induction ts generalizing i with
  | nil => simp at hf
  | cons a ts ih =>
    cases i with
    | zero =>
      simp only [List.getElem?_cons_zero, Option.some.injEq] at hf
      subst hf
      simp [List.countP_cons, TaskPhase.isInFlight]
    | succ j =>
      simp only [List.getElem?_cons_succ] at hf
      simp only [List.set_cons_succ, List.countP_cons]
      have := ih j hf
      omega

/-- The semaphore invariant: the internal counter plus the number of
in-flight requests is always exactly the construction-time capacity. -/
theorem semReachable_invariant {cap n : Nat} {s : SemState}
    (h : SemReachable cap n s) : s.counter + s.inFlightCount = cap := by
  induction h with
  | init => simp [semInit, SemState.inFlightCount, List.countP_eq_zero,
      TaskPhase.isInFlight]
  | @step s _ _ hstep ih =>
    cases hstep with
    | acquire i hp hc =>
      have hcount := countP_set_pending_to_inFlight s.tasks i hp
      simp only [SemState.inFlightCount] at ih ⊢
      rw [hcount]
      omega
    | finish i ok hf =>
      have hcount := countP_set_inFlight_to_done s.tasks i ok hf
      simp only [SemState.inFlightCount] at ih ⊢
      omega

/-!
## Concrete fixtures

Small closed worlds used to evaluate the definitions at concrete inputs.
-/

/-- A search object as produced by `__init__` with the defaults. -/
def S0 : VinewsVnExpressSearch :=
  { _timeout := 10
    _semaphore_limit := 5
    _homepage_url := "https://vnexpress.net/"
    _domain := "vnexpress.net"
    _base_search_url := "https://timkiem.vnexpress.net/" }

def card1 : SearchReference := ⟨"t1", "u1", "s1"⟩

def card2 : SearchReference := ⟨"t2", "u2", "s2"⟩

def homepage0 : Homepage := ⟨[card1]⟩

/-- Fixture world: every fetch echoes the URL as the body, search pages
parse to two cards, article "u1" parses and article "u2" fails to parse. -/
def Wok : World :=
  { fetch := fun _ u => .ok u
    parse_search_results := fun _ => .ok [card1, card2]
    parse_article := fun u b =>
      if u = "u1" then .ok ⟨u, "T", b⟩ else .error (.missingElement "m")
    parse_homepage := fun _ => .ok homepage0 }

/-- Fixture world: fetches and the page parser succeed, every article
parse fails. -/
def Wpfail : World :=
  { fetch := fun _ u => .ok u
    parse_search_results := fun _ => .ok [card1, card2]
    parse_article := fun _ _ => .error (.missingElement "m")
    parse_homepage := fun _ => .ok homepage0 }

/-- Fixture world: fetching either article URL fails with HTTP 500;
everything else succeeds. -/
def Wafail : World :=
  { fetch := fun _ u =>
      if u = "u1" ∨ u = "u2" then .error (.httpStatus 500) else .ok u
    parse_search_results := fun _ => .ok [card1, card2]
    parse_article := fun u b => .ok ⟨u, "T", b⟩
    parse_homepage := fun _ => .ok homepage0 }

/-- Fixture world: every fetch fails with a transport error. -/
def Wdown : World :=
  { fetch := fun _ _ => .error .transport
    parse_search_results := fun _ => .ok [card1, card2]
    parse_article := fun u b => .ok ⟨u, "T", b⟩
    parse_homepage := fun _ => .ok homepage0 }

/-- Fixture world: fetches succeed but both page parsers raise a
missing-element structural error. -/
def Wbadpage : World :=
  { fetch := fun _ u => .ok u
    parse_search_results := fun _ => .error (.missingElement "container")
    parse_article := fun u b => .ok ⟨u, "T", b⟩
    parse_homepage := fun _ => .error (.missingElement "container") }

/-!
## Claim theorems
-/

/-- C3: every non-positive timeout supplied to the constructor or the
timeout setter, and every non-positive `semaphore_limit` supplied to the
constructor, makes the call fail immediately with a configuration
`ValueError`; positive values are stored exactly as supplied, never
clamped. -/
theorem nonpositive_config_rejected_at_construction
    (t1 t2 t3 sl sl2 value : Int) (slo : Option Int)
    (s : VinewsVnExpressSearch)
    (h1 : t1 ≤ 0) (h2 : 0 < t2) (h3 : sl ≤ 0) (h4 : value ≤ 0)
    (h5 : 0 < t3) (h6 : 0 < sl2) :
    VinewsVnExpressSearch.init t1 slo
        = .error (.valueError "Timeout must be a positive integer.")
  ∧ VinewsVnExpressSearch.init t2 (some sl)
        = .error (.valueError "semaphore_limit must be a positive integer.")
  ∧ s.setTimeout value
        = .error (.valueError "Timeout must be a positive integer.")
  ∧ VinewsVnExpressSearch.init t3 (some sl2)
        = .ok ⟨t3, sl2, "https://vnexpress.net/", "vnexpress.net",
            "https://timkiem.vnexpress.net/"⟩
  ∧ s.setTimeout t3 = .ok { s with _timeout := t3 } := by
  refine ⟨?_, ?_, ?_, ?_, ?_⟩
  · simp [VinewsVnExpressSearch.init, h1]
  · simp [VinewsVnExpressSearch.init, h3, not_le.mpr h2, not_lt.mpr h3]
  · simp [VinewsVnExpressSearch.setTimeout, h4]
  · simp [VinewsVnExpressSearch.init, not_le.mpr h5, not_le.mpr h6]
  · simp [VinewsVnExpressSearch.setTimeout, not_le.mpr h5]

/-- Witness for C3: evaluated at timeout -1, semaphore_limit 0, setter
value 0, and the accepted configuration (3, 4). -/
theorem nonpositive_config_rejected_at_construction_witness :
    VinewsVnExpressSearch.init (-1) none
        = .error (.valueError "Timeout must be a positive integer.")
  ∧ VinewsVnExpressSearch.init 1 (some 0)
        = .error (.valueError "semaphore_limit must be a positive integer.")
  ∧ S0.setTimeout 0
        = .error (.valueError "Timeout must be a positive integer.")
  ∧ VinewsVnExpressSearch.init 3 (some 4)
        = .ok ⟨3, 4, "https://vnexpress.net/", "vnexpress.net",
            "https://timkiem.vnexpress.net/"⟩
  ∧ S0.setTimeout 3 = .ok { S0 with _timeout := 3 } :=
  nonpositive_config_rejected_at_construction (-1) 1 3 0 4 0 none S0
    (by decide) (by decide) (by decide) (by decide) (by decide) (by decide)

/-- C5: every `SearchResults` returned by a basic (non-advanced) search,
in either the synchronous or the asynchronous path, has
`total_results = results.length`. -/
theorem basic_search_total_equals_results_length
    (s : VinewsVnExpressSearch) (w : World) (q : String)
    (dr cat : Option String) (limit : Option Int) (now : Int)
    (r r2 : SearchResults)
    (h : s.search w q dr cat false limit now = .ok (.inl r))
    (h2 : s.async_search w q dr cat false limit now = .ok (.inl r2)) :
    r.total_results = r.results.length
      ∧ r2.total_results = r2.results.length := by
  constructor
  · simp only [VinewsVnExpressSearch.search] at h
    cases hfb : w.fetch none
        (s._base_search_url ++ "?" ++ urlencode (buildParams q dr cat)) with
    | error e => simp only [hfb] at h; exact Except.noConfusion h
    | ok page =>
      simp only [hfb] at h
      cases hpp : w.parse_search_results page with
      | error e => simp only [hpp] at h; exact Except.noConfusion h
      | ok cards =>
        simp only [hpp, Bool.false_eq_true, if_false, Except.ok.injEq,
          Sum.inl.injEq] at h
        subst h
        rfl
  · simp only [VinewsVnExpressSearch.async_search] at h2
    cases hfb : w.fetch (some s._timeout)
        (s._base_search_url ++ "?" ++ urlencode (buildParams q dr cat)) with
    | error e => simp only [hfb] at h2; exact Except.noConfusion h2
    | ok page =>
      simp only [hfb] at h2
      cases hpp : w.parse_search_results page with
      | error e => simp only [hpp] at h2; exact Except.noConfusion h2
      | ok cards =>
        simp only [hpp, Bool.false_eq_true, if_false, Except.ok.injEq,
          Sum.inl.injEq] at h2
        subst h2
        rfl

/-- The basic-search record produced by the `Wok` fixture. -/
def basicR : SearchResults :=
  ⟨"https://timkiem.vnexpress.net/?q=q", "vnexpress.net", [("q", "q")],
    [card1, card2], 2, 0⟩

/-- Witness for C5: evaluated on the `Wok` fixture. -/
theorem basic_search_total_equals_results_length_witness :
    basicR.total_results = basicR.results.length
      ∧ basicR.total_results = basicR.results.length :=
  basic_search_total_equals_results_length S0 Wok "q" none none none 0
    basicR basicR rfl rfl

/-- C8: errors fetching or parsing the primary page (homepage or
search-results page) — a non-2xx status or a structural parse error —
propagate to the caller unmodified in both the synchronous and the
asynchronous variants; they are never caught or converted. -/
theorem primary_page_errors_propagate_unmodified
    (s : VinewsVnExpressSearch) (w1 w2 : World) (q : String)
    (dr cat : Option String) (adv : Bool) (limit : Option Int) (now : Int)
    (e1 e2 : Err) (page page2 hpage : String)
    (hs1 : w1.fetch none (searchUrlOf s q dr cat) = .error e1)
    (hs2 : w1.fetch (some s._timeout) (searchUrlOf s q dr cat) = .error e1)
    (hp1 : w2.fetch none (searchUrlOf s q dr cat) = .ok page)
    (hp2 : w2.parse_search_results page = .error e2)
    (hp3 : w2.fetch (some s._timeout) (searchUrlOf s q dr cat) = .ok page2)
    (hp4 : w2.parse_search_results page2 = .error e2)
    (hh1 : w1.fetch none s._homepage_url = .error e1)
    (hh2 : w2.fetch none s._homepage_url = .ok hpage)
    (hh3 : w2.parse_homepage hpage = .error e2) :
    s.search w1 q dr cat adv limit now = .error e1
  ∧ s.async_search w1 q dr cat adv limit now = .error e1
  ∧ s.search w2 q dr cat adv limit now = .error e2
  ∧ s.async_search w2 q dr cat adv limit now = .error e2
  ∧ s.fetch_homepage w1 = .error e1
  ∧ s.async_fetch_homepage w1 = .error e1
  ∧ s.fetch_homepage w2 = .error e2
  ∧ s.async_fetch_homepage w2 = .error e2 := by
  simp only [searchUrlOf] at hs1 hs2 hp1 hp2 hp3 hp4
  refine ⟨?_, ?_, ?_, ?_, ?_, ?_, ?_, ?_⟩
  · simp only [VinewsVnExpressSearch.search, hs1]
  · simp only [VinewsVnExpressSearch.async_search, hs2]
  · simp only [VinewsVnExpressSearch.search, hp1, hp2]
  · simp only [VinewsVnExpressSearch.async_search, hp3, hp4]
  · simp only [VinewsVnExpressSearch.fetch_homepage, hh1]
  · simp only [VinewsVnExpressSearch.async_fetch_homepage, hh1]
  · simp only [VinewsVnExpressSearch.fetch_homepage, hh2, hh3]
  · simp only [VinewsVnExpressSearch.async_fetch_homepage, hh2, hh3]

/-- Witness for C8: `Wdown` (transport failure on every fetch) and
`Wbadpage` (structural parse failure on every page). -/
theorem primary_page_errors_propagate_unmodified_witness :
    S0.search Wdown "q" none none false none 0 = .error .transport
  ∧ S0.async_search Wdown "q" none none false none 0 = .error .transport
  ∧ S0.search Wbadpage "q" none none false none 0
      = .error (.missingElement "container")
  ∧ S0.async_search Wbadpage "q" none none false none 0
      = .error (.missingElement "container")
  ∧ S0.fetch_homepage Wdown = .error .transport
  ∧ S0.async_fetch_homepage Wdown = .error .transport
  ∧ S0.fetch_homepage Wbadpage = .error (.missingElement "container")
  ∧ S0.async_fetch_homepage Wbadpage = .error (.missingElement "container") :=
  primary_page_errors_propagate_unmodified S0 Wdown Wbadpage "q" none none
    false none 0 .transport (.missingElement "container")
    "https://timkiem.vnexpress.net/?q=q" "https://timkiem.vnexpress.net/?q=q"
    "https://vnexpress.net/" rfl rfl rfl rfl rfl rfl rfl rfl rfl

/-- C1 counterexample: a batch in which every article URL fails its HTTP
fetch (status 500). The claim says the errors are swallowed and the
returned result list is empty with no exception escaping; instead, in both
the synchronous and the asynchronous path, the `HTTPStatusError` propagates
out of the batch engine and no result object is produced at all. -/
theorem batch_fetch_failure_propagates_counterexample :
    S0.search Wafail "q" none none true none 0 = .error (.httpStatus 500)
  ∧ S0.async_search Wafail "q" none none true none 0
      = .error (.httpStatus 500) :=
  ⟨rfl, rfl⟩

/-- C1 (amended): only article PARSE failures are swallowed (the URL's
result is dropped and processing continues); an article FETCH failure
(network error, timeout, non-2xx status) propagates out of both paths,
aborting the batch. For every batch in which every URL fails at the parse
stage (fetches succeeding), the returned result list is empty and no
exception propagates out of the batch engine. -/
theorem batch_parse_failures_swallowed_fetch_failures_propagate
    (s : VinewsVnExpressSearch) (w w2 : World) (query : String)
    (dr cat : Option String) (limit : Option Int) (now : Int)
    (fetchBody : Option Int → String → String)
    (cardsOf : String → List SearchReference)
    (page2 page3 : String) (cards2 cards3 : List SearchReference)
    (e e' : Err)
    (hf : ∀ t u, w.fetch t u = .ok (fetchBody t u))
    (hc : ∀ p, w.parse_search_results p = .ok (cardsOf p))
    (hpa : ∀ u b, ∃ er, w.parse_article u b = .error er)
    (h1 : w2.fetch none (searchUrlOf s query dr cat) = .ok page2)
    (h2 : w2.parse_search_results page2 = .ok cards2)
    (h3 : syncFetchParseLoop w2 s._timeout
        (pySliceTo (cards2.map (·.url)) (limit.getD 5)) = .error e)
    (h4 : w2.fetch (some s._timeout) (searchUrlOf s query dr cat) = .ok page3)
    (h5 : w2.parse_search_results page3 = .ok cards3)
    (h6 : gather ((pySliceTo (cards3.map (·.url)) (limit.getD 5)).map
        (asyncFetchAndParse w2 s._timeout)) = .error e') :
    (∃ r : AdvancedSearchResults,
        s.search w query dr cat true limit now = .ok (.inr r)
          ∧ r.results = [])
  ∧ (∃ r : AdvancedSearchResults,
        s.async_search w query dr cat true limit now = .ok (.inr r)
          ∧ r.results = [])
  ∧ s.search w2 query dr cat true limit now = .error e
  ∧ s.async_search w2 query dr cat true limit now = .error e' := by
  have hnone : ∀ u, articleOutcome w s._timeout u = none := by
    intro u
    obtain ⟨er, her⟩ := hpa u (fetchBody (some s._timeout) u)
    simp [articleOutcome, hf, her, Except.toOption]
  have hempty : ∀ (us : List String),
      us.filterMap (articleOutcome w s._timeout) = [] := by
    intro us
    exact List.filterMap_eq_nil_iff.mpr fun u _ => hnone u
  simp only [searchUrlOf] at h1 h2 h3 h4 h5 h6
  refine ⟨?_, ?_, ?_, ?_⟩
  · exact ⟨_, search_advanced_spec s w query dr cat limit now fetchBody
      cardsOf hf hc, hempty _⟩
  · exact ⟨_, async_search_advanced_spec s w query dr cat limit now fetchBody
      cardsOf hf hc, hempty _⟩
  · simp [VinewsVnExpressSearch.search, h1, h2, h3]
  · simp [VinewsVnExpressSearch.async_search, h4, h5, h6]

/-- Witness for C1 (amended): `Wpfail` (all parses fail, fetches succeed)
and `Wafail` (article fetches fail with HTTP 500). -/
theorem batch_parse_failures_swallowed_fetch_failures_propagate_witness :
    (∃ r : AdvancedSearchResults,
        S0.search Wpfail "q" none none true none 0 = .ok (.inr r)
          ∧ r.results = [])
  ∧ (∃ r : AdvancedSearchResults,
        S0.async_search Wpfail "q" none none true none 0 = .ok (.inr r)
          ∧ r.results = [])
  ∧ S0.search Wafail "q" none none true none 0 = .error (.httpStatus 500)
  ∧ S0.async_search Wafail "q" none none true none 0
      = .error (.httpStatus 500) :=
  batch_parse_failures_swallowed_fetch_failures_propagate S0 Wpfail Wafail
    "q" none none none 0 (fun _ u => u) (fun _ => [card1, card2])
    "https://timkiem.vnexpress.net/?q=q" "https://timkiem.vnexpress.net/?q=q"
    [card1, card2] [card1, card2] (.httpStatus 500) (.httpStatus 500)
    (fun _ _ => rfl) (fun _ => rfl)
    (fun _ _ => ⟨.missingElement "m", rfl⟩)
    rfl rfl rfl rfl rfl rfl

/-- Strictness of the filter: if some element maps to `none`, the filtered
list is strictly shorter. -/
theorem length_filterMap_lt_of_none {α β : Type} (f : α → Option β)
    (xs : List α) (h : ∃ x ∈ xs, f x = none) :
    (xs.filterMap f).length < xs.length := by
  induction xs with
  | nil => simp at h
  | cons x rest ih =>
    obtain ⟨y, hy, hfy⟩ := h
    rcases List.mem_cons.mp hy with rfl | hmem
    · rw [List.filterMap_cons, hfy]
      have := List.length_filterMap_le f rest
      simp only [List.length_cons]
      omega
    · cases hfx : f x with
      | none =>
        rw [List.filterMap_cons, hfx]
        have := List.length_filterMap_le f rest
        simp only [List.length_cons]
        omega
      | some b =>
        rw [List.filterMap_cons, hfx]
        have := ih ⟨y, hmem, hfy⟩
        simp only [List.length_cons]
        omega

/-- C2: inside advanced search, every article whose Article Parser
invocation fails is excluded from the results, the remaining URLs are still
processed (the result is exactly the in-order list of successfully parsed
articles), and the caller sees only a possibly-shorter result list — never
the underlying parse error — in both the synchronous and the asynchronous
path. -/
theorem parser_failures_excluded_from_advanced_results
    (s : VinewsVnExpressSearch) (w : World) (query : String)
    (dr cat : Option String) (limit : Option Int) (now : Int)
    (fetchBody : Option Int → String → String)
    (cardsOf : String → List SearchReference)
    (hf : ∀ t u, w.fetch t u = .ok (fetchBody t u))
    (hc : ∀ p, w.parse_search_results p = .ok (cardsOf p)) :
    (∃ r : AdvancedSearchResults,
        s.search w query dr cat true limit now = .ok (.inr r)
      ∧ r.results = (pySliceTo
            ((cardsOf (fetchBody none (searchUrlOf s query dr cat))).map
              (·.url)) (limit.getD 5)).filterMap (articleOutcome w s._timeout)
      ∧ r.results.length ≤ (pySliceTo
            ((cardsOf (fetchBody none (searchUrlOf s query dr cat))).map
              (·.url)) (limit.getD 5)).length)
  ∧ (∃ r : AdvancedSearchResults,
        s.async_search w query dr cat true limit now = .ok (.inr r)
      ∧ r.results = (pySliceTo
            ((cardsOf (fetchBody (some s._timeout)
              (searchUrlOf s query dr cat))).map
              (·.url)) (limit.getD 5)).filterMap (articleOutcome w s._timeout)
      ∧ r.results.length ≤ (pySliceTo
            ((cardsOf (fetchBody (some s._timeout)
              (searchUrlOf s query dr cat))).map
              (·.url)) (limit.getD 5)).length) := by
  refine ⟨⟨_, search_advanced_spec s w query dr cat limit now fetchBody
      cardsOf hf hc, rfl, ?_⟩,
    ⟨_, async_search_advanced_spec s w query dr cat limit now fetchBody
      cardsOf hf hc, rfl, ?_⟩⟩
  · exact List.length_filterMap_le _ _
  · exact List.length_filterMap_le _ _

/-- Witness for C2: on `Wok`, article "u2" fails to parse and is excluded,
"u1" is still processed. -/
theorem parser_failures_excluded_from_advanced_results_witness :
    (∃ r : AdvancedSearchResults,
        S0.search Wok "q" none none true none 0 = .ok (.inr r)
      ∧ r.results = (pySliceTo
            (([card1, card2] : List SearchReference).map (·.url))
            ((none : Option Int).getD 5)).filterMap (articleOutcome Wok 10)
      ∧ r.results.length ≤ (pySliceTo
            (([card1, card2] : List SearchReference).map (·.url))
            ((none : Option Int).getD 5)).length)
  ∧ (∃ r : AdvancedSearchResults,
        S0.async_search Wok "q" none none true none 0 = .ok (.inr r)
      ∧ r.results = (pySliceTo
            (([card1, card2] : List SearchReference).map (·.url))
            ((none : Option Int).getD 5)).filterMap (articleOutcome Wok 10)
      ∧ r.results.length ≤ (pySliceTo
            (([card1, card2] : List SearchReference).map (·.url))
            ((none : Option Int).getD 5)).length) :=
  parser_failures_excluded_from_advanced_results S0 Wok "q" none none none 0
    (fun _ u => u) (fun _ => [card1, card2]) (fun _ _ => rfl) (fun _ => rfl)

/-- C6: `AdvancedSearchResults.total_results` is set inconsistently between
the two implementations: the asynchronous path stores the pre-filter
attempted count (the number of URLs attempted, strictly exceeding the
filtered results length whenever some article fails), while the
synchronous path stores the post-filter actual count (the length of the
results list). -/
theorem advanced_total_results_inconsistent_between_paths
    (s : VinewsVnExpressSearch) (w : World) (query : String)
    (dr cat : Option String) (limit : Option Int) (now : Int)
    (fetchBody : Option Int → String → String)
    (cardsOf : String → List SearchReference)
    (hf : ∀ t u, w.fetch t u = .ok (fetchBody t u))
    (hc : ∀ p, w.parse_search_results p = .ok (cardsOf p)) :
    (∃ ra : AdvancedSearchResults,
        s.async_search w query dr cat true limit now = .ok (.inr ra)
      ∧ ra.total_results = (pySliceTo
            ((cardsOf (fetchBody (some s._timeout)
              (searchUrlOf s query dr cat))).map (·.url))
            (limit.getD 5)).length
      ∧ ra.results.length ≤ ra.total_results
      ∧ ((∃ u ∈ pySliceTo
            ((cardsOf (fetchBody (some s._timeout)
              (searchUrlOf s query dr cat))).map (·.url)) (limit.getD 5),
            articleOutcome w s._timeout u = none) →
          ra.results.length < ra.total_results))
  ∧ (∃ rs : AdvancedSearchResults,
        s.search w query dr cat true limit now = .ok (.inr rs)
      ∧ rs.total_results = rs.results.length) := by
  refine ⟨⟨_, async_search_advanced_spec s w query dr cat limit now fetchBody
      cardsOf hf hc, rfl, List.length_filterMap_le _ _, ?_⟩,
    ⟨_, search_advanced_spec s w query dr cat limit now fetchBody
      cardsOf hf hc, rfl⟩⟩
  intro hex
  exact length_filterMap_lt_of_none _ _ hex

/-- Witness for C6: on `Wok`, the async path reports `total_results = 2`
against one actual result, while the sync path reports `1 = 1`. -/
theorem advanced_total_results_inconsistent_between_paths_witness :
    (∃ ra : AdvancedSearchResults,
        S0.async_search Wok "q" none none true none 0 = .ok (.inr ra)
      ∧ ra.total_results = (pySliceTo
            (([card1, card2] : List SearchReference).map (·.url))
            ((none : Option Int).getD 5)).length
      ∧ ra.results.length ≤ ra.total_results
      ∧ ((∃ u ∈ pySliceTo
            (([card1, card2] : List SearchReference).map (·.url))
            ((none : Option Int).getD 5),
            articleOutcome Wok 10 u = none) →
          ra.results.length < ra.total_results))
  ∧ (∃ rs : AdvancedSearchResults,
        S0.search Wok "q" none none true none 0 = .ok (.inr rs)
      ∧ rs.total_results = rs.results.length) :=
  advanced_total_results_inconsistent_between_paths S0 Wok "q" none none
    none 0 (fun _ u => u) (fun _ => [card1, card2]) (fun _ _ => rfl)
    (fun _ => rfl)

/-- C9: in the asynchronous advanced-search path the returned articles
preserve the relative order of their URLs in the truncated reference list:
`asyncio.gather` yields results in task-submission order and the `None`
filter is order-preserving, so the output is the input-ordered subsequence
of successfully parsed articles. -/
theorem async_advanced_results_preserve_input_order
    (s : VinewsVnExpressSearch) (w : World) (query : String)
    (dr cat : Option String) (limit : Option Int) (now : Int)
    (fetchBody : Option Int → String → String)
    (cardsOf : String → List SearchReference) (g : String → Article)
    (hf : ∀ t u, w.fetch t u = .ok (fetchBody t u))
    (hc : ∀ p, w.parse_search_results p = .ok (cardsOf p))
    (hg : ∀ u a, articleOutcome w s._timeout u = some a → a = g u) :
    ∃ ra : AdvancedSearchResults,
      s.async_search w query dr cat true limit now = .ok (.inr ra)
    ∧ ra.results = (pySliceTo
          ((cardsOf (fetchBody (some s._timeout)
            (searchUrlOf s query dr cat))).map (·.url))
          (limit.getD 5)).filterMap (articleOutcome w s._timeout)
    ∧ List.Sublist ra.results ((pySliceTo
          ((cardsOf (fetchBody (some s._timeout)
            (searchUrlOf s query dr cat))).map (·.url))
          (limit.getD 5)).map g) := by
  refine ⟨_, async_search_advanced_spec s w query dr cat limit now fetchBody
    cardsOf hf hc, rfl, ?_⟩
  exact filterMap_sublist_map _ g _ (fun u _ a ha => hg u a ha)

/-- Witness for C9 on `Wok`: the single success "u1" is an in-order
subsequence of the two-element all-success list. -/
theorem async_advanced_results_preserve_input_order_witness :
    ∃ ra : AdvancedSearchResults,
      S0.async_search Wok "q" none none true none 0 = .ok (.inr ra)
    ∧ ra.results = (pySliceTo
          (([card1, card2] : List SearchReference).map (·.url))
          ((none : Option Int).getD 5)).filterMap (articleOutcome Wok 10)
    ∧ List.Sublist ra.results ((pySliceTo
          (([card1, card2] : List SearchReference).map (·.url))
          ((none : Option Int).getD 5)).map (fun u => (⟨u, "T", u⟩ : Article))) :=
  async_advanced_results_preserve_input_order S0 Wok "q" none none none 0
    (fun _ u => u) (fun _ => [card1, card2]) (fun u => ⟨u, "T", u⟩)
    (fun _ _ => rfl) (fun _ => rfl)
    (by
      intro u a h
      by_cases hu : u = "u1"
      · subst hu
        simp only [articleOutcome, Wok, Except.toOption, if_pos rfl] at h
        simp_all
      · simp [articleOutcome, Wok, Except.toOption, hu] at h)

/-- C10: the `limit` keyword argument is never validated — any integer is
accepted without error. `limit = 0` attempts no article fetches and
returns an `AdvancedSearchResults` with an empty results list, and a
negative limit, via the Python slice `urls[:limit]`, selects all but the
last `|limit|` reference URLs instead of raising a configuration error. -/
theorem limit_argument_never_validated
    (s : VinewsVnExpressSearch) (w : World) (query : String)
    (dr cat : Option String) (now : Int)
    (fetchBody : Option Int → String → String)
    (cardsOf : String → List SearchReference)
    (limit : Int) (urls : List String)
    (hneg : limit < 0)
    (hf : ∀ t u, w.fetch t u = .ok (fetchBody t u))
    (hc : ∀ p, w.parse_search_results p = .ok (cardsOf p)) :
    (∃ r : AdvancedSearchResults,
        s.search w query dr cat true (some 0) now = .ok (.inr r)
      ∧ r.results = [] ∧ r.total_results = 0)
  ∧ (∃ r : AdvancedSearchResults,
        s.async_search w query dr cat true (some 0) now = .ok (.inr r)
      ∧ r.results = [] ∧ r.total_results = 0)
  ∧ (∀ lim : Int, ∃ r : AdvancedSearchResults,
        s.search w query dr cat true (some lim) now = .ok (.inr r))
  ∧ (∀ lim : Int, ∃ r : AdvancedSearchResults,
        s.async_search w query dr cat true (some lim) now = .ok (.inr r))
  ∧ pySliceTo urls limit = urls.take (urls.length - (-limit).toNat)
  ∧ pySliceTo urls limit ++ urls.drop (urls.length - (-limit).toNat)
      = urls := by
  have hzero : ∀ (xs : List String), pySliceTo xs (0 : Int) = [] := by
    intro xs
    simp [pySliceTo]
  refine ⟨?_, ?_, ?_, ?_, ?_, ?_⟩
  · refine ⟨_, search_advanced_spec s w query dr cat (some 0) now fetchBody
      cardsOf hf hc, ?_, ?_⟩ <;>
      simp [hzero]
  · refine ⟨_, async_search_advanced_spec s w query dr cat (some 0) now
      fetchBody cardsOf hf hc, ?_, ?_⟩ <;>
      simp [hzero]
  · intro lim
    exact ⟨_, search_advanced_spec s w query dr cat (some lim) now fetchBody
      cardsOf hf hc⟩
  · intro lim
    exact ⟨_, async_search_advanced_spec s w query dr cat (some lim) now
      fetchBody cardsOf hf hc⟩
  · simp [pySliceTo, not_le.mpr hneg]
  · simp only [pySliceTo, not_le.mpr hneg, if_false]
    exact List.take_append_drop _ urls

/-- Witness for C10: `limit = -1` over a three-URL reference list selects
the first two URLs. -/
theorem limit_argument_never_validated_witness :
    (-1 : Int) < 0
  ∧ pySliceTo ["a", "b", "c"] (-1 : Int)
      = List.take ((["a", "b", "c"] : List String).length - (Int.toNat 1))
          ["a", "b", "c"]
  ∧ (∃ r : AdvancedSearchResults,
        S0.search Wok "q" none none true (some 0) 0 = .ok (.inr r)
      ∧ r.results = [] ∧ r.total_results = 0) :=
  ⟨by decide,
    (limit_argument_never_validated S0 Wok "q" none none 0 (fun _ u => u)
      (fun _ => [card1, card2]) (-1) ["a", "b", "c"] (by decide)
      (fun _ _ => rfl) (fun _ => rfl)).2.2.2.2.1,
    (limit_argument_never_validated S0 Wok "q" none none 0 (fun _ u => u)
      (fun _ => [card1, card2]) (-1) ["a", "b", "c"] (by decide)
      (fun _ _ => rfl) (fun _ => rfl)).1⟩

/-- C4 counterexample: a parsed reference list of length 2 with
`limit = 2`, where the first article fetch fails with HTTP 500. The claim
requires exactly `min(2, 2) = 2` URLs to be attempted, but the synchronous
loop aborts after attempting only the first URL and the call raises
instead of returning a (possibly shorter) result. -/
theorem exactly_min_urls_attempted_counterexample :
    S0.search Wafail "q" none none true (some 2) 0
        = .error (.httpStatus 500)
  ∧ syncAttempted Wafail 10
        (pySliceTo (([card1, card2] : List SearchReference).map (·.url)) 2)
      = 1
  ∧ (1 : Nat) ≠ min 2 2 :=
  ⟨rfl, rfl, by decide⟩

/-- C4 (amended): for every `limit ≥ 0` and reference list of length `n`,
the first `min(limit, n)` URLs in reference order are selected (truncating
without error when fewer are available); at most `min(limit, n)` URLs are
attempted, and exactly `min(limit, n)` whenever every selected fetch
succeeds (in the synchronous path a fetch failure aborts the batch early;
the asynchronous path launches all `min(limit, n)` tasks); at most
`min(limit, n)` Article records are returned; when no limit is supplied
the default limit is `5`. -/
theorem batch_truncation_and_attempt_bounds
    (w : World) (t : Int) (limit : Int) (urls : List String)
    (s : VinewsVnExpressSearch) (wq : World) (q : String)
    (dr cat : Option String) (adv : Bool) (now : Int)
    (hl : 0 ≤ limit) :
    pySliceTo urls limit = urls.take limit.toNat
  ∧ (pySliceTo urls limit).length = min limit.toNat urls.length
  ∧ syncAttempted w t (pySliceTo urls limit) ≤ min limit.toNat urls.length
  ∧ ((∀ u ∈ pySliceTo urls limit, ∃ b, w.fetch (some t) u = .ok b) →
      syncAttempted w t (pySliceTo urls limit) = min limit.toNat urls.length)
  ∧ (∀ arts, syncFetchParseLoop w t (pySliceTo urls limit) = .ok arts →
      arts.length ≤ min limit.toNat urls.length)
  ∧ (∀ opts,
      gather ((pySliceTo urls limit).map (asyncFetchAndParse w t)) = .ok opts
      → (opts.filterMap id).length ≤ min limit.toNat urls.length)
  ∧ s.search wq q dr cat adv none now = s.search wq q dr cat adv (some 5) now
  ∧ s.async_search wq q dr cat adv none now
      = s.async_search wq q dr cat adv (some 5) now := by
  have htrunc : pySliceTo urls limit = urls.take limit.toNat := by
    simp [pySliceTo, hl]
  have hlen : (pySliceTo urls limit).length = min limit.toNat urls.length := by
    rw [htrunc]
    exact List.length_take _ _
  refine ⟨htrunc, hlen, ?_, ?_, ?_, ?_, rfl, rfl⟩
  · calc syncAttempted w t (pySliceTo urls limit)
        ≤ (pySliceTo urls limit).length := syncAttempted_le_length w t _
      _ = min limit.toNat urls.length := hlen
  · intro hok
    rw [syncAttempted_eq_length w t _ hok]
    exact hlen
  · intro arts harts
    calc arts.length ≤ (pySliceTo urls limit).length :=
        syncFetchParseLoop_ok_length w t _ arts harts
      _ = min limit.toNat urls.length := hlen
  · intro opts hopts
    have h1 : (opts.filterMap id).length ≤ opts.length :=
      List.length_filterMap_le _ _
    have h2 := gather_ok_length _ opts hopts
    rw [List.length_map] at h2
    omega

/-- Witness for C4 (amended): `limit = 2` over three URLs on `Wok`, where
every fetch succeeds: two URLs selected and attempted, and the default
limit equality evaluated on the fixture. -/
theorem batch_truncation_and_attempt_bounds_witness :
    (0 : Int) ≤ 2
  ∧ pySliceTo ["u1", "u2", "u3"] (2 : Int)
      = List.take (Int.toNat 2) ["u1", "u2", "u3"]
  ∧ syncAttempted Wok 10 (pySliceTo ["u1", "u2", "u3"] (2 : Int))
      = min (Int.toNat 2) (["u1", "u2", "u3"] : List String).length
  ∧ S0.search Wok "q" none none true none 0
      = S0.search Wok "q" none none true (some 5) 0 :=
  ⟨by decide,
    (batch_truncation_and_attempt_bounds Wok 10 2 ["u1", "u2", "u3"] S0 Wok
      "q" none none true 0 (by decide)).1,
    (batch_truncation_and_attempt_bounds Wok 10 2 ["u1", "u2", "u3"] S0 Wok
      "q" none none true 0 (by decide)).2.2.2.1
      (fun u _ => ⟨u, rfl⟩),
    (batch_truncation_and_attempt_bounds Wok 10 2 ["u1", "u2", "u3"] S0 Wok
      "q" none none true 0 (by decide)).2.2.2.2.2.2.1⟩

/-- C7: during any asynchronous batch, at most `semaphore_limit` HTTP
requests are in flight simultaneously in every reachable scheduler state;
a slot is acquired before each request and released unconditionally on
completion — normal or exceptional — so when all tasks are done the
semaphore counter is restored to its full capacity (no slot leaked). -/
theorem semaphore_bounds_in_flight_requests (cap n : Nat) (st : SemState)
    (h : SemReachable cap n st) :
    st.inFlightCount ≤ cap
  ∧ ((∀ p ∈ st.tasks, p.isDone = true) → st.counter = cap) := by
  have hinv := semReachable_invariant h
  constructor
  · omega
  · intro hdone
    have hzero : st.inFlightCount = 0 := by
      refine List.countP_eq_zero.mpr (fun p hp => ?_)
      have := hdone p hp
      cases p <;> simp_all [TaskPhase.isDone, TaskPhase.isInFlight]
    omega

/-- Witness for C7: a concrete two-task batch under capacity 1, in which
the first task raises (finishing with `ok = false`) and still releases its
slot; the final state has no request in flight and a fully restored
counter. -/
theorem semaphore_bounds_in_flight_requests_witness :
    SemState.inFlightCount
        ⟨1, [TaskPhase.done false, TaskPhase.done true]⟩ ≤ 1
  ∧ ((∀ p ∈ ([TaskPhase.done false, TaskPhase.done true] : List TaskPhase),
        p.isDone = true) →
      SemState.counter ⟨1, [TaskPhase.done false, TaskPhase.done true]⟩
        = 1) := by
  have h0 : SemReachable 1 2 (semInit 1 2) := SemReachable.init
  have h1 : SemReachable 1 2 ⟨0, [TaskPhase.inFlight, TaskPhase.pending]⟩ :=
    SemReachable.step h0 (SemStep.acquire (semInit 1 2) 0 rfl (by decide))
  have h2 : SemReachable 1 2 ⟨1, [TaskPhase.done false, TaskPhase.pending]⟩ :=
    SemReachable.step h1
      (SemStep.finish ⟨0, [TaskPhase.inFlight, TaskPhase.pending]⟩ 0 false rfl)
  have h3 : SemReachable 1 2 ⟨0, [TaskPhase.done false, TaskPhase.inFlight]⟩ :=
    SemReachable.step h2
      (SemStep.acquire ⟨1, [TaskPhase.done false, TaskPhase.pending]⟩ 1 rfl
        (by decide))
  have h4 : SemReachable 1 2 ⟨1, [TaskPhase.done false, TaskPhase.done true]⟩ :=
    SemReachable.step h3
      (SemStep.finish ⟨0, [TaskPhase.done false, TaskPhase.inFlight]⟩ 1 true
        rfl)
  exact semaphore_bounds_in_flight_requests 1 2 _ h4

end Vinews
